import Mathlib

/-!
Shallow embedding of the single-entity fetch orchestrator `useOne`
(src/packages/core/src/hooks/data/useOne.ts) and the collaborator
contracts it composes.  Pure values are Lean data, the hook body is a
Lean function from its props (plus the resolved resource, which the
external resolver injects) to the records it hands to each collaborator,
and the settle callbacks are functions producing ordered event traces.
-/

namespace Refine

/-- A record key: string or number (TS `BaseKey = string | number`). -/
inductive BaseKey where
  | str (s : String)
  | num (n : Int)
  deriving DecidableEq, Repr

/-- JS template-literal rendering of a `BaseKey`. -/
def BaseKey.render : BaseKey → String
  | .str s => s
  | .num n => toString n

/-- JS truthiness of a `BaseKey` (`0` and `""` are falsy). -/
def BaseKey.truthy : BaseKey → Bool
  | .str s => s ≠ ""
  | .num n => n ≠ 0

/-- Rendering of a possibly-undefined key inside a JS template literal:
`undefined` renders as the string "undefined". -/
def renderKey : Option BaseKey → String
  | some k => k.render
  | none => "undefined"

/-- Query metadata: an open string-keyed mapping, modelled as an
association list where the earliest entry for a key wins on lookup. -/
abbrev Meta := List (String × String)

/-- JS object spread `{...base, ...over}`: fields of `over` win.  With
earliest-entry-wins lookup this is `over ++ base`. -/
def Meta.mergeOver (base over : Meta) : Meta := over ++ base

/-- Lookup in a metadata mapping (first entry for the key). -/
def Meta.find (m : Meta) (k : String) : Option String := m.lookup k

/-- Resolved resource metadata: a required `name` plus resource-level
default query metadata. -/
structure ResourceMeta where
  name : String
  meta : Meta
  deriving DecidableEq, Repr

/-- Typed backend error (`HttpError`): status code and message. -/
structure HttpError where
  statusCode : Nat
  message : String
  deriving DecidableEq, Repr

/-- Success payload of a `getOne` settle, kept abstract as a string. -/
abbrev QueryData := String

/-- A notification descriptor handed to the dispatcher. -/
structure NotificationConfig where
  key : Option String
  message : String
  description : Option String
  type : String
  deriving DecidableEq, Repr

/-- Caller-supplied success/error notification: either a static
descriptor (possibly absent, i.e. `undefined`) or a function of
`(outcome, {id, ...combinedMeta}, identifier)`. -/
inductive NotificationDescriptor (α : Type) where
  | static (cfg : Option NotificationConfig)
  | computed (f : α → Option BaseKey → Meta → String → Option NotificationConfig)

/-- The request-context bundle the cache engine hands to the fetcher:
cache key, pagination hint, abort signal token. -/
structure QueryContext where
  queryKey : List String
  pageParam : Option String
  signal : Bool
  deriving DecidableEq, Repr

/-- The metadata object passed to the backend adapter:
`{...combinedMeta, queryContext: {...}}`. -/
structure AdapterMeta where
  base : Meta
  queryContext : QueryContext
  deriving DecidableEq, Repr

/-- The argument record of the backend adapter call
`getOne({resource, id, meta, metaData})`.  The source passes `id!`,
which at runtime forwards the possibly-undefined value unchecked. -/
structure GetOneParams where
  resource : String
  id : Option BaseKey
  meta : AdapterMeta
  metaData : AdapterMeta
  deriving DecidableEq, Repr

/-- The `params` object of the live-subscription registration, after
the `...liveParams` spread has been applied.  The spread comes last in
the source's params literal, so entries of `liveParams` named like the
earlier fields override them; its remaining entries land in `extra`. -/
structure SubscriptionParams where
  ids : List BaseKey
  id : Option BaseKey
  meta : Meta
  metaData : Meta
  subscriptionType : String
  extra : Meta
  deriving DecidableEq, Repr

/-- The caller's live-event filter params, spread last into the
subscription params literal.  The public type is
`liveParams?: {ids?: BaseKey[]; [key: string]: any}`, so besides extra
entries it may carry overrides for any of the earlier fields of the
params literal; each override is an optional same-typed value (present
means the spread shadows that field). -/
structure LiveParams where
  ids : Option (List BaseKey)
  id : Option (Option BaseKey)
  meta : Option Meta
  metaData : Option Meta
  subscriptionType : Option String
  extra : Meta
  deriving DecidableEq, Repr

/-- A liveParams object with no overrides and no extra entries. -/
def LiveParams.empty : LiveParams :=
  { ids := none, id := none, meta := none, metaData := none,
    subscriptionType := none, extra := [] }

/-- The full live-subscription registration record. -/
structure SubscriptionRegistration where
  resource : String
  types : List String
  channel : String
  params : SubscriptionParams
  enabled : Bool
  deriving DecidableEq, Repr

/-- The caller's query options that the orchestrator inspects: the
optional `enabled` override and presence of the two settle callbacks. -/
structure QueryOptionsModel where
  enabled : Option Bool
  hasOnSuccess : Bool
  hasOnError : Bool
  deriving DecidableEq, Repr

/-- The props of `useOne`, together with the resolution result
`(resource, identifier)` injected by the external resource resolver. -/
structure UseOneArgs where
  resource : Option ResourceMeta
  identifier : String
  id : Option BaseKey
  queryOptions : QueryOptionsModel
  successNotification : NotificationDescriptor QueryData
  errorNotification : NotificationDescriptor HttpError
  meta : Option Meta
  metaData : Option Meta
  liveParams : LiveParams
  overtimeInterval : Option Nat

/-- Modelled from the spec: `pickNotDeprecated` (in `@definitions`, not
under src/) resolves the legacy-field fallback — the explicit `meta`
wins, the deprecated `metaData` is used only when `meta` is absent. -/
def pickNotDeprecated (m md : Option Meta) : Option Meta :=
  match m with
  | some x => some x
  | none => md

/-- Modelled from the spec: `useMeta`'s `getMeta` (in `@hooks`, not
under src/) merges resource-level default metadata with the preferred
call-site metadata; the call-site fields win, resource defaults fill
the remaining gaps. -/
def getMeta (resource : Option ResourceMeta) (m : Option Meta) : Meta :=
  Meta.mergeOver (match resource with | some r => r.meta | none => []) (m.getD [])

/-- `combinedMeta` as computed in `useOne`:
`getMeta({resource, meta: pickNotDeprecated(meta, metaData)})`. -/
def combinedMeta (a : UseOneArgs) : Meta :=
  getMeta a.resource (pickNotDeprecated a.meta a.metaData)

/-- The effective `enabled` flag of the query (useOne.ts lines 186-189):
the explicit override when defined, else `typeof id !== "undefined"`. -/
def useOneQueryEnabled (a : UseOneArgs) : Bool :=
  match a.queryOptions.enabled with
  | some b => b
  | none => a.id.isSome

/-- The query function of `useOne` (useOne.ts lines 163-183): calls the
adapter's `getOne` with `resource: resource?.name ?? ""`, `id: id!`, and
the combined metadata extended with the query context, duplicated under
both the `meta` and the `metaData` field names. -/
def useOneQueryFn (a : UseOneArgs) (ctx : QueryContext) : GetOneParams :=
  { resource := match a.resource with | some r => r.name | none => ""
    id := a.id
    meta := { base := combinedMeta a, queryContext := ctx }
    metaData := { base := combinedMeta a, queryContext := ctx } }

/-- The live-subscription registration issued by `useOne`
(useOne.ts lines 136-155).  The `...liveParams` spread is last in the
params literal, so each params field takes the liveParams override when
one is present and the literal's own value otherwise. -/
def useOneSubscription (a : UseOneArgs) : SubscriptionRegistration :=
  { resource := a.identifier
    types := ["*"]
    channel := "resources/" ++ (match a.resource with
      | some r => r.name
      | none => "undefined")
    params :=
      { ids := a.liveParams.ids.getD (match a.id with
          | some k => if k.truthy then [k] else []
          | none => [])
        id := a.liveParams.id.getD a.id
        meta := a.liveParams.meta.getD (combinedMeta a)
        metaData := a.liveParams.metaData.getD (combinedMeta a)
        subscriptionType := a.liveParams.subscriptionType.getD "useOne"
        extra := a.liveParams.extra }
    enabled := match a.queryOptions.enabled with
      | some b => b
      | none => a.resource.isSome && a.id.isSome }

/-- Modelled from the spec: the translation service (`useTranslate`, not
under src/) with no custom translation table returns the supplied
fallback string. -/
def translate (_key : String) (_params : Meta) (fallback : String) : String :=
  fallback

/-- The default (fallback) error notification `useOne` passes to the
dispatcher (useOne.ts lines 223-232). -/
def defaultErrorNotification (a : UseOneArgs) (err : HttpError) : NotificationConfig :=
  { key := some (renderKey a.id ++ "-" ++ a.identifier ++ "-getOne-notification")
    message := translate "notifications.error"
      [("statusCode", toString err.statusCode)]
      ("Error (status code: " ++ toString err.statusCode ++ ")")
    description := some err.message
    type := "error" }

/-- The error-notification descriptor computed in `onError`
(useOne.ts lines 211-221). -/
def computeErrorNotification (a : UseOneArgs) (err : HttpError) :
    Option NotificationConfig :=
  match a.errorNotification with
  | .computed f => f err a.id (combinedMeta a) a.identifier
  | .static cfg => cfg

/-- The success-notification descriptor computed in `onSuccess`
(useOne.ts lines 193-203). -/
def computeSuccessNotification (a : UseOneArgs) (d : QueryData) :
    Option NotificationConfig :=
  match a.successNotification with
  | .computed f => f d a.id (combinedMeta a) a.identifier
  | .static cfg => cfg

/-- Modelled from the spec: the notification dispatcher
(`useHandleNotification`, not under src/) shows the supplied descriptor
when present, else the fallback when present, else nothing. -/
def handleNotification (cfg fallback : Option NotificationConfig) :
    Option NotificationConfig :=
  match cfg with
  | some c => some c
  | none => fallback

/-- One collaborator interaction during a settle callback, in order. -/
inductive Event where
  | authCheck (err : HttpError)
  | errorCallback (err : HttpError)
  | successCallback (d : QueryData)
  | descriptorApplied (d : QueryData) (ctxId : Option BaseKey) (m : Meta)
      (ident : String)
  | dispatch (cfg : Option NotificationConfig)
      (fallback : Option NotificationConfig)
  deriving DecidableEq, Repr

/-- Whether an event is a notification dispatch. -/
def Event.isDispatch : Event → Bool
  | .dispatch _ _ => true
  | _ => false

/-- The ordered collaborator interactions of `onError`
(useOne.ts lines 207-233): `checkError(err)`, then the optional caller
error callback, then `handleNotification(config, default)`. -/
def onErrorTrace (a : UseOneArgs) (err : HttpError) : List Event :=
  [Event.authCheck err]
    ++ (if a.queryOptions.hasOnError then [Event.errorCallback err] else [])
    ++ [Event.dispatch (computeErrorNotification a err)
          (some (defaultErrorNotification a err))]

/-- The ordered collaborator interactions of `onSuccess`
(useOne.ts lines 190-205): the optional caller success callback, then
descriptor evaluation (recorded with its exact arguments when the
descriptor is a function), then `handleNotification(config)` with no
fallback. -/
def onSuccessTrace (a : UseOneArgs) (d : QueryData) : List Event :=
  (if a.queryOptions.hasOnSuccess then [Event.successCallback d] else [])
    ++ (match a.successNotification with
        | .computed _ => [Event.descriptorApplied d a.id (combinedMeta a)
            a.identifier]
        | .static _ => [])
    ++ [Event.dispatch (computeSuccessNotification a d) none]

/-- The notification actually shown after an error settle. -/
def errorNotificationShown (a : UseOneArgs) (err : HttpError) :
    Option NotificationConfig :=
  handleNotification (computeErrorNotification a err)
    (some (defaultErrorNotification a err))

/-- The notification actually shown after a success settle. -/
def successNotificationShown (a : UseOneArgs) (d : QueryData) :
    Option NotificationConfig :=
  handleNotification (computeSuccessNotification a d) none

/-- Modelled from the spec: the generic cache engine (external, §6)
invokes the fetcher only when the effective `enabled` flag is true; one
settle cycle therefore issues the listed adapter calls. -/
def backendCalls (a : UseOneArgs) (ctx : QueryContext) : List GetOneParams :=
  if useOneQueryEnabled a then [useOneQueryFn a ctx] else []

/-- Modelled from the spec: a disabled query never fetches, so
`isFetching` can be true only when the query is enabled. -/
def engineIsFetching (enabled inFlight : Bool) : Bool :=
  enabled && inFlight

/-- The cache-engine query result consumed by `useOne`. -/
structure QueryObserverResult where
  dataVal : Option QueryData
  errorVal : Option HttpError
  status : String
  isFetching : Bool
  deriving DecidableEq, Repr

/-- The value `useOne` returns: the query result spread unchanged plus
`overtime.elapsedTime`. -/
structure UseOneReturn extends QueryObserverResult where
  overtime : Nat
  deriving DecidableEq, Repr

/-- Modelled from the spec: the stall watchdog (`useLoadingOvertime`,
not under src/) accumulates elapsed time in fixed interval ticks while
loading and resets to zero when not loading. -/
def useLoadingOvertime (isLoading : Bool) (interval : Option Nat)
    (ticks : Nat) : Nat :=
  if isLoading then ticks * interval.getD 0 else 0

/-- The return construction of `useOne` (useOne.ts lines 237-244):
`{...queryResponse, overtime: {elapsedTime}}`, the watchdog driven by
`queryResponse.isFetching`. -/
def useOneResult (a : UseOneArgs) (qr : QueryObserverResult) (ticks : Nat) :
    UseOneReturn :=
  { toQueryObserverResult := qr
    overtime := useLoadingOvertime qr.isFetching a.overtimeInterval ticks }

/-- `pat` occurs as a contiguous substring of `s`. -/
def strContains (s pat : String) : Prop :=
  ∃ l r, s.data = l ++ pat.data ++ r

/-- The resource-level default metadata seen by `getMeta`. -/
def resourceDefaultMeta (a : UseOneArgs) : Meta :=
  match a.resource with | some r => r.meta | none => []

/-! Sample concrete inputs used by the witnesses and counterexamples. -/

/-- A baseline invocation: resource "posts", record key 5, both settle
callbacks supplied, no notification descriptors, no metadata. -/
def argsPosts : UseOneArgs :=
  { resource := some { name := "posts", meta := [] }
    identifier := "posts"
    id := some (.num 5)
    queryOptions := { enabled := none, hasOnSuccess := true, hasOnError := true }
    successNotification := .static none
    errorNotification := .static none
    meta := none
    metaData := none
    liveParams := LiveParams.empty
    overtimeInterval := none }

/-- An invocation with an undefined record key and `enabled` explicitly
forced true. -/
def argsNoId : UseOneArgs :=
  { argsPosts with
    id := none
    queryOptions := { enabled := some true, hasOnSuccess := false, hasOnError := false } }

/-- An invocation with an undefined record key and no `enabled` override. -/
def argsNoIdDefault : UseOneArgs :=
  { argsPosts with
    id := none
    queryOptions := { enabled := none, hasOnSuccess := false, hasOnError := false } }

/-- An invocation where the resolver found no resource but the record
key is defined. -/
def argsNoResource : UseOneArgs :=
  { argsPosts with
    resource := none
    identifier := ""
    id := some (.num 7) }

/-- An invocation with explicit, legacy and resource-default metadata
all present. -/
def argsMerged : UseOneArgs :=
  { argsPosts with
    resource := some { name := "posts", meta := [("a", "res"), ("c", "resC")] }
    meta := some [("a", "explicit")]
    metaData := some [("a", "legacy"), ("b", "legacyB")] }

/-- An invocation whose liveParams spread shadows the subscription
params' `meta` field. -/
def argsShadowMeta : UseOneArgs :=
  { argsPosts with
    liveParams := { LiveParams.empty with meta := some [("x", "shadow")] } }

/-- An invocation whose liveParams spread shadows the subscription
params' `metaData` field. -/
def argsShadowMetaData : UseOneArgs :=
  { argsPosts with
    liveParams := { LiveParams.empty with metaData := some [("x", "shadow")] } }

/-- A computed success-notification function used by the witnesses. -/
def sampleSuccessFn :
    QueryData → Option BaseKey → Meta → String → Option NotificationConfig :=
  fun _ _ _ _ => none

/-- An invocation with a computed success-notification descriptor. -/
def argsComputed : UseOneArgs :=
  { argsPosts with successNotification := .computed sampleSuccessFn }

/-- An empty request-context bundle. -/
def ctx0 : QueryContext := { queryKey := [], pageParam := none, signal := false }

/-- The 404 error of the spec's end-to-end scenario. -/
def err404 : HttpError := { statusCode := 404, message := "Not Found" }

/-- A 401 authentication error. -/
def err401 : HttpError := { statusCode := 401, message := "Unauthorized" }

/-! Helper lemmas. -/

theorem Meta.find_mergeOver (base over : Meta) (k : String) :
    (Meta.mergeOver base over).find k = ((over.find k).or (base.find k)) :=
  List.lookup_append

theorem combinedMeta_eq (a : UseOneArgs) :
    combinedMeta a =
      Meta.mergeOver (resourceDefaultMeta a)
        ((pickNotDeprecated a.meta a.metaData).getD []) := rfl

/-! The claims. -/

/-- C1 (counterexample): with the record key undefined and
`queryOptions.enabled` explicitly forced true, the backend call is NOT
skipped — the effective enabled flag is true, the cache engine invokes
the fetcher, and the adapter receives the undefined id; no local
precondition error is raised by the orchestrator. -/
theorem useOne_forced_enabled_counterexample :
    useOneQueryEnabled argsNoId = true
    ∧ backendCalls argsNoId ctx0 ≠ []
    ∧ (useOneQueryFn argsNoId ctx0).id = none := by
  refine ⟨rfl, ?_, rfl⟩
  decide

/-- C1 (amended): with the record key undefined and no explicit
`enabled` override, the query is disabled, no backend call occurs and
`isFetching` never becomes true; with `enabled` explicitly forced true,
the query runs and the backend adapter is invoked with the undefined
id (no local precondition check is performed). -/
theorem useOne_undefined_id_amended (a : UseOneArgs) (ctx : QueryContext)
    (hid : a.id = none) :
    (a.queryOptions.enabled = none →
        useOneQueryEnabled a = false
        ∧ backendCalls a ctx = []
        ∧ ∀ fl : Bool, engineIsFetching (useOneQueryEnabled a) fl = false)
    ∧ (a.queryOptions.enabled = some true →
        useOneQueryEnabled a = true
        ∧ backendCalls a ctx = [useOneQueryFn a ctx]
        ∧ (useOneQueryFn a ctx).id = none) := by
  constructor
  · intro hen
    have he : useOneQueryEnabled a = false := by
      simp [useOneQueryEnabled, hen, hid]
    refine ⟨he, ?_, ?_⟩
    · simp [backendCalls, he]
    · intro fl
      simp [engineIsFetching, he]
  · intro hen
    have he : useOneQueryEnabled a = true := by
      simp [useOneQueryEnabled, hen]
    refine ⟨he, ?_, ?_⟩
    · simp [backendCalls, he]
    · simp [useOneQueryFn, hid]

/-- C1 (witness): the amended statement evaluated at a concrete
invocation with undefined id and no `enabled` override. -/
theorem useOne_undefined_id_amended_witness :
    argsNoIdDefault.id = none
    ∧ ((argsNoIdDefault.queryOptions.enabled = none →
          useOneQueryEnabled argsNoIdDefault = false
          ∧ backendCalls argsNoIdDefault ctx0 = []
          ∧ ∀ fl : Bool,
              engineIsFetching (useOneQueryEnabled argsNoIdDefault) fl = false)
        ∧ (argsNoIdDefault.queryOptions.enabled = some true →
          useOneQueryEnabled argsNoIdDefault = true
          ∧ backendCalls argsNoIdDefault ctx0 = [useOneQueryFn argsNoIdDefault ctx0]
          ∧ (useOneQueryFn argsNoIdDefault ctx0).id = none)) :=
  ⟨rfl, useOne_undefined_id_amended argsNoIdDefault ctx0 rfl⟩

/-- C2: when the computed error-notification descriptor is absent, the
dispatcher shows exactly one default notification whose key is
"{id}-{identifier}-getOne-notification" (with the id rendered as in a
JS template literal), whose translated message contains the error's
status code, whose description is the error's message, and whose kind
is error; exactly one dispatch happens per error settle. -/
theorem useOne_default_error_notification (a : UseOneArgs) (err : HttpError)
    (h : computeErrorNotification a err = none) :
    errorNotificationShown a err = some (defaultErrorNotification a err)
    ∧ (defaultErrorNotification a err).key =
        some (renderKey a.id ++ "-" ++ a.identifier ++ "-getOne-notification")
    ∧ strContains (defaultErrorNotification a err).message
        (toString err.statusCode)
    ∧ (defaultErrorNotification a err).description = some err.message
    ∧ (defaultErrorNotification a err).type = "error"
    ∧ List.countP Event.isDispatch (onErrorTrace a err) = 1 := by
  refine ⟨?_, rfl, ?_, rfl, rfl, ?_⟩
  · simp [errorNotificationShown, handleNotification, h]
  · exact ⟨"Error (status code: ".data, ")".data, rfl⟩
  · cases he : a.queryOptions.hasOnError <;>
      simp [onErrorTrace, he, List.countP_append, List.countP_cons,
        Event.isDispatch]

/-- C2 (witness): the concrete 404 scenario of the spec — resource
"posts", id 5, error with status 404 and message "Not Found". -/
theorem useOne_default_error_notification_witness :
    computeErrorNotification argsPosts err404 = none
    ∧ (errorNotificationShown argsPosts err404 =
          some (defaultErrorNotification argsPosts err404)
        ∧ (defaultErrorNotification argsPosts err404).key =
            some (renderKey argsPosts.id ++ "-" ++ argsPosts.identifier
              ++ "-getOne-notification")
        ∧ strContains (defaultErrorNotification argsPosts err404).message
            (toString err404.statusCode)
        ∧ (defaultErrorNotification argsPosts err404).description =
            some err404.message
        ∧ (defaultErrorNotification argsPosts err404).type = "error"
        ∧ List.countP Event.isDispatch (onErrorTrace argsPosts err404) = 1)
    ∧ (defaultErrorNotification argsPosts err404).key =
        some "5-posts-getOne-notification"
    ∧ (defaultErrorNotification argsPosts err404).message =
        "Error (status code: 404)"
    ∧ (defaultErrorNotification argsPosts err404).description =
        some "Not Found" :=
  ⟨rfl, useOne_default_error_notification argsPosts err404 rfl, by decide,
    by decide, by decide⟩

/-- C3: the error path of a settle performs, in order and each exactly
once, the auth-escalation classifier call, the caller-supplied error
callback, and the error-notification dispatch. -/
theorem useOne_error_path_order (a : UseOneArgs) (err : HttpError)
    (h : a.queryOptions.hasOnError = true) :
    onErrorTrace a err =
      [Event.authCheck err, Event.errorCallback err,
        Event.dispatch (computeErrorNotification a err)
          (some (defaultErrorNotification a err))] := by
  simp [onErrorTrace, h]

/-- C3 (witness): the error path evaluated on a 401 error — the
auth-escalation classifier fires strictly before the notification
dispatch, each exactly once. -/
theorem useOne_error_path_order_witness :
    argsPosts.queryOptions.hasOnError = true
    ∧ onErrorTrace argsPosts err401 =
        [Event.authCheck err401, Event.errorCallback err401,
          Event.dispatch (computeErrorNotification argsPosts err401)
            (some (defaultErrorNotification argsPosts err401))] :=
  ⟨rfl, useOne_error_path_order argsPosts err401 rfl⟩

/-- C4 (counterexample): the merged `combinedMeta` does NOT always
reach the subscription registration's params — the `...liveParams`
spread is last in the params literal, so a liveParams carrying a `meta`
key shadows the forwarded value: here the registration's params.meta
differs from `combinedMeta`. -/
theorem useOne_meta_precedence_counterexample :
    (useOneSubscription argsShadowMeta).params.meta ≠
      combinedMeta argsShadowMeta := by
  decide

/-- C4 (amended): the combined metadata observes the precedence
explicit > legacy > resource-default — an explicitly passed `meta`
wins, the deprecated `metaData` is the fallback when `meta` is absent,
and resource-level default metadata fills the remaining gaps; the
merged `combinedMeta` is always forwarded to the backend adapter call,
and it reaches the subscription registration's params.meta and
params.metaData fields exactly when the caller's liveParams spread
(spread last into the params literal) does not shadow that field. -/
theorem useOne_meta_precedence_amended (a : UseOneArgs) (k : String)
    (ctx : QueryContext) :
    (∀ m, a.meta = some m →
        (combinedMeta a).find k =
          ((m.find k).or ((resourceDefaultMeta a).find k)))
    ∧ (a.meta = none → ∀ md, a.metaData = some md →
        (combinedMeta a).find k =
          ((md.find k).or ((resourceDefaultMeta a).find k)))
    ∧ (a.meta = none → a.metaData = none →
        (combinedMeta a).find k = (resourceDefaultMeta a).find k)
    ∧ (useOneQueryFn a ctx).meta.base = combinedMeta a
    ∧ (a.liveParams.meta = none →
        (useOneSubscription a).params.meta = combinedMeta a)
    ∧ (a.liveParams.metaData = none →
        (useOneSubscription a).params.metaData = combinedMeta a) := by
  refine ⟨?_, ?_, ?_, rfl, ?_, ?_⟩
  · intro m hm
    rw [combinedMeta_eq, Meta.find_mergeOver]
    simp [pickNotDeprecated, hm]
  · intro hm md hmd
    rw [combinedMeta_eq, Meta.find_mergeOver]
    simp [pickNotDeprecated, hm, hmd]
  · intro hm hmd
    rw [combinedMeta_eq, Meta.find_mergeOver]
    simp [pickNotDeprecated, hm, hmd, Meta.find]
  · intro hl
    simp [useOneSubscription, hl]
  · intro hl
    simp [useOneSubscription, hl]

/-- C4 (witness): the amended precedence evaluated at an invocation
carrying explicit, legacy and resource-default metadata and no
liveParams overrides: the explicit entry for key "a" wins over both
the legacy and the resource-default entries, and the resource default
fills the gap at key "c". -/
theorem useOne_meta_precedence_amended_witness :
    ((∀ m, argsMerged.meta = some m →
        (combinedMeta argsMerged).find "a" =
          ((m.find "a").or ((resourceDefaultMeta argsMerged).find "a")))
      ∧ (argsMerged.meta = none → ∀ md, argsMerged.metaData = some md →
        (combinedMeta argsMerged).find "a" =
          ((md.find "a").or ((resourceDefaultMeta argsMerged).find "a")))
      ∧ (argsMerged.meta = none → argsMerged.metaData = none →
        (combinedMeta argsMerged).find "a" =
          (resourceDefaultMeta argsMerged).find "a")
      ∧ (useOneQueryFn argsMerged ctx0).meta.base = combinedMeta argsMerged
      ∧ (argsMerged.liveParams.meta = none →
          (useOneSubscription argsMerged).params.meta = combinedMeta argsMerged)
      ∧ (argsMerged.liveParams.metaData = none →
          (useOneSubscription argsMerged).params.metaData =
            combinedMeta argsMerged))
    ∧ (combinedMeta argsMerged).find "a" = some "explicit"
    ∧ (combinedMeta argsMerged).find "c" = some "resC" :=
  ⟨useOne_meta_precedence_amended argsMerged "a" ctx0, by decide, by decide⟩

/-- C5 (counterexample): when the resolver yields no resource but the
record key is defined (and no `enabled` override is given), a backend
getOne call IS executed, and it carries the empty string as a
placeholder resource name — refuting the claim that no backend call
occurs in this situation. -/
theorem useOne_undefined_resource_counterexample :
    argsNoResource.resource = none
    ∧ backendCalls argsNoResource ctx0 ≠ []
    ∧ (useOneQueryFn argsNoResource ctx0).resource = "" := by
  refine ⟨rfl, ?_, rfl⟩
  decide

/-- C5 (amended): absence of a resolved resource does not disable the
query — the effective enabled flag still follows the override or the
presence of the record key; when effectively enabled, the adapter is
invoked with the empty string as placeholder resource name (no
exception is thrown, the call record is produced totally); only the
live-subscription registration is disabled by the missing resource. -/
theorem useOne_undefined_resource_amended (a : UseOneArgs)
    (ctx : QueryContext) (hr : a.resource = none) :
    useOneQueryEnabled a = (a.queryOptions.enabled.getD a.id.isSome)
    ∧ (useOneQueryEnabled a = true →
        backendCalls a ctx = [useOneQueryFn a ctx]
        ∧ (useOneQueryFn a ctx).resource = "")
    ∧ (a.queryOptions.enabled = none → (useOneSubscription a).enabled = false) := by
  refine ⟨?_, ?_, ?_⟩
  · cases he : a.queryOptions.enabled <;> simp [useOneQueryEnabled, he]
  · intro he
    constructor
    · simp [backendCalls, he]
    · simp [useOneQueryFn, hr]
  · intro hen
    simp [useOneSubscription, hen, hr]

/-- C5 (witness): the amended statement evaluated on a concrete
invocation with no resolved resource and record key 7. -/
theorem useOne_undefined_resource_amended_witness :
    argsNoResource.resource = none
    ∧ (useOneQueryEnabled argsNoResource =
          (argsNoResource.queryOptions.enabled.getD argsNoResource.id.isSome)
        ∧ (useOneQueryEnabled argsNoResource = true →
            backendCalls argsNoResource ctx0 = [useOneQueryFn argsNoResource ctx0]
            ∧ (useOneQueryFn argsNoResource ctx0).resource = "")
        ∧ (argsNoResource.queryOptions.enabled = none →
            (useOneSubscription argsNoResource).enabled = false)) :=
  ⟨rfl, useOne_undefined_resource_amended argsNoResource ctx0 rfl⟩

/-- C6: the live-subscription registration's enabled flag equals the
explicit `queryOptions.enabled` override when one is defined, and
otherwise the conjunction of "resource name is defined" and "record
key is defined". -/
theorem useOne_subscription_enabled (a : UseOneArgs) :
    (∀ b, a.queryOptions.enabled = some b → (useOneSubscription a).enabled = b)
    ∧ (a.queryOptions.enabled = none →
        (useOneSubscription a).enabled = (a.resource.isSome && a.id.isSome)) := by
  constructor
  · intro b hb
    simp [useOneSubscription, hb]
  · intro hn
    simp [useOneSubscription, hn]

/-- C6 (witness): the subscription enabled flag evaluated at a concrete
invocation without an override: resource and id are both defined, so
the flag is true. -/
theorem useOne_subscription_enabled_witness :
    ((∀ b, argsPosts.queryOptions.enabled = some b →
        (useOneSubscription argsPosts).enabled = b)
      ∧ (argsPosts.queryOptions.enabled = none →
        (useOneSubscription argsPosts).enabled =
          (argsPosts.resource.isSome && argsPosts.id.isSome)))
    ∧ (useOneSubscription argsPosts).enabled = true :=
  ⟨useOne_subscription_enabled argsPosts, by decide⟩

/-- C7: the success path runs the caller-supplied success callback
first with the data, then evaluates the success-notification
descriptor — a computed descriptor receives exactly the arguments
(data, id-plus-combinedMeta context, resource identifier) exactly once
per settle — and forwards its result to the dispatcher with no
fallback/dedupe descriptor. -/
theorem useOne_success_path_order (a : UseOneArgs) (d : QueryData)
    (f : QueryData → Option BaseKey → Meta → String → Option NotificationConfig)
    (hs : a.queryOptions.hasOnSuccess = true)
    (hf : a.successNotification = .computed f) :
    onSuccessTrace a d =
      [Event.successCallback d,
        Event.descriptorApplied d a.id (combinedMeta a) a.identifier,
        Event.dispatch (f d a.id (combinedMeta a) a.identifier) none]
    ∧ computeSuccessNotification a d =
        f d a.id (combinedMeta a) a.identifier := by
  constructor
  · simp [onSuccessTrace, hs, hf, computeSuccessNotification]
  · simp [computeSuccessNotification, hf]

/-- C7 (witness): the success path evaluated on a concrete invocation
with a computed success-notification descriptor. -/
theorem useOne_success_path_order_witness :
    argsComputed.queryOptions.hasOnSuccess = true
    ∧ argsComputed.successNotification =
        NotificationDescriptor.computed sampleSuccessFn
    ∧ (onSuccessTrace argsComputed "payload" =
        [Event.successCallback "payload",
          Event.descriptorApplied "payload" argsComputed.id
            (combinedMeta argsComputed) argsComputed.identifier,
          Event.dispatch
            (sampleSuccessFn "payload" argsComputed.id
              (combinedMeta argsComputed) argsComputed.identifier) none]
      ∧ computeSuccessNotification argsComputed "payload" =
          sampleSuccessFn "payload" argsComputed.id
            (combinedMeta argsComputed) argsComputed.identifier) :=
  ⟨rfl, rfl,
    useOne_success_path_order argsComputed "payload" sampleSuccessFn rfl rfl⟩

/-- C8 (counterexample): the two metadata fields of the subscription
registration params are NOT structurally equal on every invocation —
the `...liveParams` spread is last in the params literal, so a
liveParams carrying a `metaData` key shadows that field while `meta`
keeps the forwarded `combinedMeta`. -/
theorem useOne_meta_metaData_counterexample :
    (useOneSubscription argsShadowMetaData).params.meta ≠
      (useOneSubscription argsShadowMetaData).params.metaData := by
  decide

/-- C8 (amended): in the backend adapter call the same combined
metadata is always passed under both the `meta` and the `metaData`
field names, each copy extended with the identical query-context
bundle; in the live-subscription registration params both fields carry
`combinedMeta` — and are therefore structurally equal — provided the
caller's liveParams spread (spread last into the params literal) does
not shadow the `meta` or `metaData` key. -/
theorem useOne_meta_metaData_amended (a : UseOneArgs) (ctx : QueryContext)
    (hm : a.liveParams.meta = none) (hmd : a.liveParams.metaData = none) :
    (useOneQueryFn a ctx).meta = (useOneQueryFn a ctx).metaData
    ∧ (useOneSubscription a).params.meta = combinedMeta a
    ∧ (useOneSubscription a).params.metaData = combinedMeta a
    ∧ (useOneSubscription a).params.meta =
        (useOneSubscription a).params.metaData := by
  refine ⟨rfl, ?_, ?_, ?_⟩ <;> simp [useOneSubscription, hm, hmd]

/-- C8 (witness): the amended duplication evaluated at a concrete
invocation with no liveParams overrides. -/
theorem useOne_meta_metaData_amended_witness :
    argsPosts.liveParams.meta = none
    ∧ argsPosts.liveParams.metaData = none
    ∧ ((useOneQueryFn argsPosts ctx0).meta = (useOneQueryFn argsPosts ctx0).metaData
        ∧ (useOneSubscription argsPosts).params.meta = combinedMeta argsPosts
        ∧ (useOneSubscription argsPosts).params.metaData = combinedMeta argsPosts
        ∧ (useOneSubscription argsPosts).params.meta =
            (useOneSubscription argsPosts).params.metaData) :=
  ⟨rfl, rfl, useOne_meta_metaData_amended argsPosts ctx0 rfl rfl⟩

/-- C9: the value returned by `useOne` is the cache-engine query result
unchanged, extended only with the watchdog's elapsed time under
`overtime`; the watchdog input is the query's `isFetching` flag, and
its output depends on nothing else of the query result, so it cannot
alter the fetch outcome handed back to the caller. -/
theorem useOne_return_frame (a : UseOneArgs) (qr : QueryObserverResult)
    (t : Nat) :
    (useOneResult a qr t).toQueryObserverResult = qr
    ∧ (useOneResult a qr t).dataVal = qr.dataVal
    ∧ (useOneResult a qr t).errorVal = qr.errorVal
    ∧ (useOneResult a qr t).status = qr.status
    ∧ (useOneResult a qr t).isFetching = qr.isFetching
    ∧ (useOneResult a qr t).overtime =
        useLoadingOvertime qr.isFetching a.overtimeInterval t
    ∧ (∀ qr1 qr2 : QueryObserverResult, qr1.isFetching = qr2.isFetching →
        (useOneResult a qr1 t).overtime = (useOneResult a qr2 t).overtime) := by
  refine ⟨rfl, rfl, rfl, rfl, rfl, rfl, ?_⟩
  intro qr1 qr2 h
  simp [useOneResult, h]

/-- C9 (witness): the return frame evaluated on a concrete query
result in the fetching state. -/
theorem useOne_return_frame_witness :
    (useOneResult argsPosts
        { dataVal := some "rec", errorVal := none, status := "success",
          isFetching := true } 3).toQueryObserverResult =
      { dataVal := some "rec", errorVal := none, status := "success",
        isFetching := true }
    ∧ (useOneResult argsPosts
        { dataVal := some "rec", errorVal := none, status := "success",
          isFetching := true } 3).overtime =
        useLoadingOvertime true argsPosts.overtimeInterval 3 :=
  ⟨(useOne_return_frame argsPosts
      { dataVal := some "rec", errorVal := none, status := "success",
        isFetching := true } 3).1,
    (useOne_return_frame argsPosts
      { dataVal := some "rec", errorVal := none, status := "success",
        isFetching := true } 3).2.2.2.2.2.1⟩

/-- C10: on a success settle the dispatcher is handed no fallback
descriptor, so when the computed success notification is absent
nothing is shown — unlike the error path, a success settle never
produces a default notification. -/
theorem useOne_success_no_default_notification (a : UseOneArgs)
    (d : QueryData) (h : computeSuccessNotification a d = none) :
    successNotificationShown a d = none
    ∧ Event.dispatch none none ∈ onSuccessTrace a d := by
  constructor
  · simp [successNotificationShown, handleNotification, h]
  · simp [onSuccessTrace, h]

/-- C10 (witness): a success settle with no success notification
supplied shows nothing. -/
theorem useOne_success_no_default_notification_witness :
    computeSuccessNotification argsPosts "payload" = none
    ∧ (successNotificationShown argsPosts "payload" = none
        ∧ Event.dispatch none none ∈ onSuccessTrace argsPosts "payload") :=
  ⟨rfl, useOne_success_no_default_notification argsPosts "payload" rfl⟩

end Refine
